import Mathlib

/-!
Shallow embedding of the matching engine of `auto_filer.py`
(`File.name_check`, `File.find_par_dir`, `File.find_sub_dir`,
`AutoFile.run_matches`), together with theorems settling the
specification claims about it.

Modelling conventions:
- Python strings are Lean `String`s; `str.lower`/`str.upper` are
  `lowerStr`/`upperStr`, `str.strip()` is `pyStrip`,
  `a in b` (substring test) is `strIn a b`, `str.replace(" ", "")` is
  `removeSpaces`, `os.path.splitext(n)[0]` is `splitextStem`.
- Python dicts (insertion ordered) are association lists with
  `dictGet`/`dictSet` giving the lookup/assignment semantics.
- The filesystem snapshot seen by `run_matches` is an explicit `FS`
  value: the immediate entries of the target directory (`scandir`),
  the `os.walk` listing of the source tree, a `scandir` listing for any
  other directory, and an `os.path.isfile` predicate.
- Exceptions become explicit error values; `run_matches` returns
  `none` when the Python code would hit its bare `except:` branch and
  abort the whole run (`exit()`).
-/

namespace AutoFiler

/-- `n` is a prefix of the second list (character lists). -/
def listStartsWith : List Char → List Char → Bool
  | [], _ => true
  | _ :: _, [] => false
  | c :: n, d :: h => c == d && listStartsWith n h

/-- `n` occurs as a contiguous substring of the second list, like
Python's `n in h` on strings (the empty string is in every string). -/
def listSubstr (n : List Char) : List Char → Bool
  | [] => n.isEmpty
  | c :: h => listStartsWith n (c :: h) || listSubstr n h

/-- Python `a in b` for strings: `a` occurs as a substring of `b`. -/
def strIn (a b : String) : Bool :=
  listSubstr a.data b.data

/-- Python `s.lower()` (ASCII range). -/
def lowerStr (s : String) : String :=
  ⟨s.data.map Char.toLower⟩

/-- Python `s.upper()` (ASCII range). -/
def upperStr (s : String) : String :=
  ⟨s.data.map Char.toUpper⟩

/-- Python `s.strip()`: removes leading and trailing whitespace. -/
def pyStrip (s : String) : String :=
  ⟨((s.data.dropWhile Char.isWhitespace).reverse.dropWhile
      Char.isWhitespace).reverse⟩

/-- Splitting a character list on a separator character; the result
always has one more piece than there are separators, as in Python's
`str.split(sep)`. -/
def splitSepAux (sep : Char) : List Char → List (List Char)
  | [] => [[]]
  | c :: rest =>
    let r := splitSepAux sep rest
    if c == sep then [] :: r else (c :: r.headD []) :: r.tail

/-- Python `s.split(sep)` for a one-character separator. -/
def pySplit (sep : Char) (s : String) : List String :=
  (splitSepAux sep s.data).map (fun l => String.mk l)

/-- Renders a list of strings for an error message. -/
def joinSep (sep : String) : List String → String
  | [] => ""
  | [x] => x
  | x :: y :: xs => x ++ sep ++ joinSep sep (y :: xs)

/-- Python `s.replace(" ", "")`: removes every space character
(U+0020 only; other whitespace is kept). -/
def removeSpaces (s : String) : String :=
  ⟨s.data.filter (fun c => !(c == ' '))⟩

/-- Index of the extension dot of a filename: the last `.` preceded by
some non-dot character, as in `os.path.splitext` on a basename. -/
def extDotIdx (cs : List Char) : Option Nat :=
  (List.range cs.length).foldl
    (fun acc i =>
      if cs.getD i ' ' == '.' && (cs.take i).any (fun c => !(c == '.')) then
        some i
      else acc)
    none

/-- Python `os.path.splitext(name)[0]`: the filename without its
extension. -/
def splitextStem (s : String) : String :=
  match extDotIdx s.data with
  | some i => ⟨s.data.take i⟩
  | none => s

/-- Posix `os.path.join` for a relative second component. -/
def pjoin (a b : String) : String :=
  a ++ "/" ++ b

/-- `os.path.basename`: the part after the last path separator. -/
def basename (p : String) : String :=
  (pySplit '/' p).getLastD ""

/-- Python dict lookup `d[k]` (as an option; a missing key is a
`KeyError`, handled by the callers). -/
def dictGet (d : List (String × String)) (k : String) : Option String :=
  (d.find? (fun p => p.1 == k)).map (fun p => p.2)

/-- Python dict assignment `d[k] = v`: overwrites the value in place if
the key exists (keeping its position), otherwise appends the binding. -/
def dictSet (d : List (String × String)) (k v : String) : List (String × String) :=
  if d.any (fun p => p.1 == k) then
    d.map (fun p => if p.1 == k then (k, v) else p)
  else
    d ++ [(k, v)]

/-- Errors raised by `File.name_check`: `InsufficientEntriesError` and
`InvalidFileNameError` (with the data of its message). -/
inductive NameErr where
  | insufficient : NameErr
  | invalidName (value field : String) (pos : Nat) (req : List String) : NameErr
deriving DecidableEq, Repr

/-- The `InvalidMatchError` cases raised by `File.find_par_dir` and
`File.find_sub_dir`, with the data of their messages. -/
inductive MatchErr where
  | ambiguousParent (field : String) (candidates : List String) : MatchErr
  | noParent (field : String) (value : String) : MatchErr
  | noSub (value : String) (parentBase : String) : MatchErr
  | ambiguousSub (value : String) (parentBase : String) : MatchErr
  | collision (parentBase : String) (subBase : String) : MatchErr
deriving DecidableEq, Repr

/-- Error of a resolution stage: an `InvalidMatchError`, or any other
exception (e.g. a `KeyError` on a missing field), which the caller's
bare `except:` turns into a fatal abort. -/
inductive ResolveErr where
  | fatal : ResolveErr
  | invalid (e : MatchErr) : ResolveErr
deriving DecidableEq, Repr

/-- A directory entry as produced by `os.scandir`. -/
structure Entry where
  name : String
  path : String
  isDir : Bool
deriving DecidableEq, Repr

/-- The filesystem snapshot read by `run_matches`: `scandir` of the
target path, `os.walk` of the source path, `scandir` of any other
directory, and the `os.path.isfile` predicate. -/
structure FS where
  targetEntries : List Entry
  walk : List (String × List String)
  dirEntries : String → List Entry
  isFile : String → Bool

/-- The configuration fields consumed by the matching phase.
`fieldsConfig` lists each field's name with its allowed-value list
(empty meaning unconstrained), in filename order. -/
structure Config where
  fieldsConfig : List (String × List String)
  sourceIgnore : List String
  parDirField : String
  subDirField : String
deriving DecidableEq, Repr

/-- The mutable state of a `File` object. -/
structure FileSt where
  name : String
  directory : String
  path : String
  message : Option String
  data : List (String × String)
  targetParDir : Option String
  targetSubDir : Option String
  targetPath : Option String
deriving DecidableEq, Repr

/-- `File.__init__`. -/
def mkFile (directory fileName : String) : FileSt :=
  { name := fileName
    directory := directory
    path := pjoin directory fileName
    message := none
    data := []
    targetParDir := none
    targetSubDir := none
    targetPath := none }

/-- The field loop of `File.name_check`: validates the configured
fields in order against the stem segments, recording each accepted
(trimmed) value into `data`; returns `data` as mutated so far together
with the error raised, if any. -/
def nameCheckLoop (fnFields : List String) :
    Nat → List (String × List String) → List (String × String) →
    List (String × String) × Option NameErr
  | _, [], data => (data, none)
  | i, (fieldName, req) :: rest, data =>
    let s := pyStrip (fnFields.getD i "")
    if req ≠ [] ∧ upperStr s ∉ req then
      (data, some (.invalidName s fieldName (i + 1) req))
    else
      nameCheckLoop fnFields (i + 1) rest (dictSet data fieldName s)

/-- `File.name_check`: splits the stem on `-`, raises
`InsufficientEntriesError` when there are fewer segments than
configured fields, then runs the field loop. Returns the final `data`
together with the error raised, if any. -/
def nameCheck (fileName : String) (fieldsConfig : List (String × List String))
    (data : List (String × String)) :
    List (String × String) × Option NameErr :=
  let fnFields := pySplit '-' (splitextStem fileName)
  if fnFields.length < fieldsConfig.length then
    (data, some .insufficient)
  else
    nameCheckLoop fnFields 0 fieldsConfig data

/-- The candidate list of `File.find_par_dir`: the paths of the target
index entries whose (normalized) key contains the normalized field
value as a substring. -/
def parDirCandidates (value : String) (targetPaths : List (String × String)) :
    List String :=
  (targetPaths.filter
    (fun p => strIn (lowerStr (removeSpaces value)) p.1)).map (fun p => p.2)

/-- `File.find_par_dir`: collects the target folders whose normalized
name contains the normalized field value; fails on several matches
(listing the candidates' basenames), then on none; otherwise yields
the single matching folder's path. A missing field key is a `KeyError`
(fatal). -/
def findParDir (parDirField : String) (targetPaths : List (String × String))
    (data : List (String × String)) : Except ResolveErr String :=
  match dictGet data parDirField with
  | none => .error .fatal
  | some v =>
    let parentDirs := parDirCandidates v targetPaths
    if parentDirs.length > 1 then
      .error (.invalid (.ambiguousParent parDirField (parentDirs.map basename)))
    else if parentDirs = [] then
      .error (.invalid (.noParent parDirField v))
    else
      .ok (parentDirs.headD "")

/-- The candidate list of `File.find_sub_dir`: the paths of all
immediate entries of the parent folder (directories or not) whose name
contains the field value, case-insensitively. -/
def subDirCandidates (value : String) (entries : List Entry) : List String :=
  (entries.filter (fun e => strIn (lowerStr value) (lowerStr e.name))).map
    (fun e => e.path)

/-- `File.find_sub_dir`: scans the resolved parent folder's entries for
names containing the field value (case-insensitive); fails on no match,
then on several matches, then on a same-named file already existing in
the chosen sub-folder; otherwise yields the sub-folder path and the
target path. -/
def findSubDir (subDirField : String) (targetParDir : String)
    (data : List (String × String)) (fs : FS) (fileName : String) :
    Except ResolveErr (String × String) :=
  match dictGet data subDirField with
  | none => .error .fatal
  | some v =>
    let subDirs := subDirCandidates v (fs.dirEntries targetParDir)
    if subDirs = [] then
      .error (.invalid (.noSub v (basename targetParDir)))
    else if subDirs.length > 1 then
      .error (.invalid (.ambiguousSub v (basename targetParDir)))
    else
      let sd := subDirs.headD ""
      if fs.isFile (pjoin sd fileName) then
        .error (.invalid (.collision (basename targetParDir) (basename sd)))
      else
        .ok (sd, pjoin sd fileName)

/-- Message of `InvalidFileNameError`. -/
def invalidFileNameMsg (value field : String) (pos : Nat) (req : List String) :
    String :=
  "Wrong name/value: \"" ++ value ++ "\" for field: " ++ upperStr field ++
    " in position " ++ toString pos ++ ". Should be one of the following: [" ++
    joinSep ", " req ++ "]"

/-- Messages of the `InvalidMatchError` cases. -/
def matchErrMsg : MatchErr → String
  | .ambiguousParent field cands =>
    "Found multiple matching " ++ field ++ " folders: [" ++
      joinSep ", " cands ++ "]. File name may need more detail"
  | .noParent field v =>
    "Could not find folder for " ++ field ++ ": \"" ++ v ++ "\""
  | .noSub v parentBase =>
    v ++ " folder not found in parent folder: ..\\" ++ parentBase
  | .ambiguousSub v parentBase =>
    "Found multiple matching sub folders for: " ++ v ++ " in ..\\" ++ parentBase
  | .collision parentBase subBase =>
    "Same filename already exists in ..\\" ++ parentBase ++ "\\" ++ subBase

/-- The `-- FAILED --` message set on an `InvalidFileNameError`. -/
def failedFileMsg (fileName inner : String) : String :=
  "-- FAILED  -- \"" ++ fileName ++ "\" Reason: Invalid File: " ++ inner

/-- The `-- FAILED --` message set on an `InvalidMatchError`. -/
def failedMatchMsg (fileName inner : String) : String :=
  "-- FAILED  -- \"" ++ fileName ++ "\" Reason: Invalid Match: " ++ inner

/-- The `[[ MATCHED ]]` message (source/target paths shown in full
rather than shortened against their common prefix). -/
def matchedMsg (fileName src tgt : String) : String :=
  "[[ MATCHED ]] \"" ++ fileName ++ "\" From: " ++ src ++ " To: " ++ tgt

/-- Terminal classification of one processed file: the body of the
`try`/`except` in `run_matches`. `fatal` is the bare `except:` branch
that aborts the whole run. -/
inductive Outcome where
  | matched (f : FileSt) : Outcome
  | failed (f : FileSt) : Outcome
  | skipped : Outcome
  | fatal : Outcome
deriving DecidableEq, Repr

/-- Processing of one discovered file in `run_matches`: construct the
`File`, run `name_check`, `find_par_dir`, `find_sub_dir`, and classify. -/
def processFile (cfg : Config) (targetPaths : List (String × String))
    (fs : FS) (root fn : String) : Outcome :=
  let f0 := mkFile root fn
  let r := nameCheck fn cfg.fieldsConfig f0.data
  match r.2 with
  | some .insufficient => .skipped
  | some (.invalidName v fld pos req) =>
    .failed { f0 with
              data := r.1
              message := some (failedFileMsg fn (invalidFileNameMsg v fld pos req)) }
  | none =>
    let f1 := { f0 with data := r.1 }
    match findParDir cfg.parDirField targetPaths f1.data with
    | .error .fatal => .fatal
    | .error (.invalid e) =>
      .failed { f1 with message := some (failedMatchMsg fn (matchErrMsg e)) }
    | .ok par =>
      let f2 := { f1 with targetParDir := some par }
      match findSubDir cfg.subDirField par f2.data fs fn with
      | .error .fatal => .fatal
      | .error (.invalid e) =>
        .failed { f2 with message := some (failedMatchMsg fn (matchErrMsg e)) }
      | .ok st =>
        .matched { f2 with
                   targetSubDir := some st.1
                   targetPath := some st.2
                   message := some (matchedMsg fn f2.path st.2) }

/-- The run counters and outcome lists of `AutoFile` accumulated by
`run_matches`. -/
structure Summary where
  total : Nat
  matched : List FileSt
  failed : List FileSt
  skipped : Nat
deriving DecidableEq, Repr

/-- The counters of a fresh `AutoFile`. -/
def initSummary : Summary :=
  { total := 0, matched := [], failed := [], skipped := 0 }

/-- One entry of the target-index loop of `run_matches`: a directory is
recorded under its normalized name, anything else is ignored. -/
def tiStep (acc : List (String × String)) (e : Entry) : List (String × String) :=
  if e.isDir then dictSet acc (lowerStr (removeSpaces e.name)) e.path
  else acc

/-- The target index built at the top of `run_matches`: one `scandir`
of the target path, keeping directories only, keyed by the lowercased,
space-stripped entry name. -/
def buildTargetIndex (entries : List Entry) : List (String × String) :=
  entries.foldl tiStep []

/-- One file of the walk: increment `total`, process, and record the
outcome in exactly one bucket; `none` on a fatal abort. -/
def stepFile (cfg : Config) (targetPaths : List (String × String)) (fs : FS)
    (root : String) (s : Summary) (fn : String) : Option Summary :=
  let s1 := { s with total := s.total + 1 }
  match processFile cfg targetPaths fs root fn with
  | .matched f => some { s1 with matched := s1.matched ++ [f] }
  | .failed f => some { s1 with failed := s1.failed ++ [f] }
  | .skipped => some { s1 with skipped := s1.skipped + 1 }
  | .fatal => none

/-- One directory of the walk: skipped entirely when its path contains
a configured ignore string, otherwise its files are processed in
order. -/
def stepDir (cfg : Config) (targetPaths : List (String × String)) (fs : FS)
    (s : Summary) (dir : String × List String) : Option Summary :=
  if cfg.sourceIgnore.any (fun pat => strIn pat dir.1) then
    some s
  else
    dir.2.foldlM (fun acc fn => stepFile cfg targetPaths fs dir.1 acc fn) s

/-- `AutoFile.run_matches` on a fresh `AutoFile`: build the target
index once, then walk the source tree accumulating the summary;
`none` when the run aborts fatally. -/
def runMatches (cfg : Config) (fs : FS) : Option Summary :=
  fs.walk.foldlM (stepDir cfg (buildTargetIndex fs.targetEntries) fs) initSummary

/-- Modelled from the spec: the §3 TargetIndex normalization read
literally as "lowercase + whitespace-stripped" (all whitespace
removed), for comparison with the source's space-only normalization. -/
def specWhitespaceNorm (s : String) : String :=
  lowerStr (String.mk (s.data.filter (fun c => !c.isWhitespace)))

/-- The partition invariant of the run counters: every scanned file is
in exactly one bucket. -/
def summaryInv (s : Summary) : Prop :=
  s.total = s.matched.length + s.failed.length + s.skipped

/-! ## Witness fixtures: small concrete configurations and snapshots -/

/-- A concrete configuration (the spec's Scenario A fields plus an
ignore entry). -/
def cfgW : Config :=
  { fieldsConfig := [("client", ["ACME", "GLOBEX"]), ("year", [])]
    sourceIgnore := ["ignore"]
    parDirField := "client"
    subDirField := "year" }

/-- A concrete filesystem snapshot for the witnesses. -/
def fsW : FS :=
  { targetEntries := [⟨"Acme Corp", "/t/Acme Corp", true⟩,
                      ⟨"notes.txt", "/t/notes.txt", false⟩]
    walk := [("/s", ["ACME-2023-report.pdf", "report.pdf", "xyz-2023.pdf"]),
             ("/s/ignore", ["GLOBEX-2023-x.pdf"])]
    dirEntries := fun p =>
      if p == "/t/Acme Corp" then
        [⟨"2023-intake", "/t/Acme Corp/2023-intake", true⟩]
      else []
    isFile := fun _ => false }

/-- The summary of the concrete run over `cfgW`/`fsW`. -/
def sW : Summary :=
  (runMatches cfgW fsW).getD initSummary

/-- A concrete snapshot whose destination sub-folder already holds a
file named like the processed one. -/
def fsC : FS :=
  { targetEntries := [⟨"Acme Corp", "/t/Acme Corp", true⟩]
    walk := [("/s", ["ACME-2023-report.pdf"])]
    dirEntries := fun p =>
      if p == "/t/Acme Corp" then
        [⟨"2023-intake", "/t/Acme Corp/2023-intake", true⟩]
      else []
    isFile := fun q => q == "/t/Acme Corp/2023-intake/ACME-2023-report.pdf" }

/-- A concrete snapshot whose parent folder holds a regular file (not a
directory) whose name contains the sub-dir field value. -/
def fsD : FS :=
  { targetEntries := []
    walk := []
    dirEntries := fun p =>
      if p == "/t/P" then
        [⟨"2023 summary.xlsx", "/t/P/2023 summary.xlsx", false⟩]
      else []
    isFile := fun _ => false }

/-! ## Helper lemmas -/

theorem dictSet_mem (d : List (String × String)) (k0 v0 k v : String)
    (h : (k, v) ∈ dictSet d k0 v0) : (k, v) ∈ d ∨ (k = k0 ∧ v = v0) := by
  unfold dictSet at h
  split at h
  · obtain ⟨p, hp, he⟩ := List.mem_map.mp h
    by_cases hk : (p.1 == k0) = true
    · rw [if_pos hk] at he
      right
      exact ⟨(Prod.mk.injEq _ _ _ _ ▸ he.symm).1, (Prod.mk.injEq _ _ _ _ ▸ he.symm).2⟩
    · rw [if_neg hk] at he
      left
      exact he ▸ hp
  · rcases List.mem_append.mp h with h1 | h1
    · left; exact h1
    · right
      have := List.mem_singleton.mp h1
      exact ⟨(Prod.mk.injEq _ _ _ _ ▸ this).1, (Prod.mk.injEq _ _ _ _ ▸ this).2⟩

theorem find?_cons_pos {α : Type} (p : α → Bool) (a : α) (l : List α)
    (h : p a = true) : (a :: l).find? p = some a :=
  List.find?_cons_of_pos l h

theorem find?_cons_neg {α : Type} (p : α → Bool) (a : α) (l : List α)
    (h : p a = false) : (a :: l).find? p = l.find? p :=
  List.find?_cons_of_neg l (by simp [h])

theorem find?_map_set (d : List (String × String)) (k v : String)
    (h : d.any (fun p => p.1 == k) = true) :
    (d.map (fun p => if p.1 == k then (k, v) else p)).find?
      (fun p => p.1 == k) = some (k, v) := by
  induction d with
  | nil => simp at h
  | cons p d ih =>
    rw [List.map_cons]
    by_cases hp : (p.1 == k) = true
    · rw [if_pos hp]
      exact find?_cons_pos (fun q => q.1 == k) (k, v) _ (by simp)
    · have hp2 : (p.1 == k) = false := by simpa using hp
      rw [if_neg hp, find?_cons_neg (fun q => q.1 == k) p _ hp2]
      exact ih (by simpa [hp2] using h)

theorem dictGet_dictSet_self (d : List (String × String)) (k v : String) :
    dictGet (dictSet d k v) k = some v := by
  unfold dictGet dictSet
  split
  next hany =>
    rw [find?_map_set d k v hany]
    rfl
  next hany =>
    have hnone : d.find? (fun p => p.1 == k) = none := by
      rw [List.find?_eq_none]
      intro x hx hpx
      exact hany (List.any_eq_true.mpr ⟨x, hx, hpx⟩)
    rw [List.find?_append, hnone, find?_cons_pos _ _ _ (by simp)]
    rfl

theorem find?_map_set_ne (d : List (String × String)) (k v k2 : String)
    (hne : (k == k2) = false) :
    (d.map (fun p => if p.1 == k then (k, v) else p)).find?
      (fun p => p.1 == k2) = d.find? (fun p => p.1 == k2) := by
  induction d with
  | nil => rfl
  | cons p d ih =>
    rw [List.map_cons]
    by_cases hp : (p.1 == k) = true
    · rw [if_pos hp]
      have h1 : p.1 = k := by simpa using hp
      have hp2 : (p.1 == k2) = false := by rw [h1]; exact hne
      rw [find?_cons_neg (fun q => q.1 == k2) (k, v) _ hne,
        find?_cons_neg (fun q => q.1 == k2) p _ hp2, ih]
    · rw [if_neg hp]
      by_cases hp2 : (p.1 == k2) = true
      · rw [find?_cons_pos (fun q => q.1 == k2) p _ hp2,
          find?_cons_pos (fun q => q.1 == k2) p _ hp2]
      · have hp3 : (p.1 == k2) = false := by simpa using hp2
        rw [find?_cons_neg (fun q => q.1 == k2) p _ hp3,
          find?_cons_neg (fun q => q.1 == k2) p _ hp3, ih]

theorem dictGet_dictSet_ne (d : List (String × String)) (k v k2 : String)
    (hne : (k == k2) = false) :
    dictGet (dictSet d k v) k2 = dictGet d k2 := by
  unfold dictGet dictSet
  split
  · rw [find?_map_set_ne d k v k2 hne]
  · rw [List.find?_append]
    have h1 : (([(k, v)] : List (String × String)).find?
        (fun p => p.1 == k2)) = none := by
      rw [find?_cons_neg (fun p => p.1 == k2) (k, v) [] hne]
      rfl
    rw [h1]
    cases d.find? (fun p => p.1 == k2) <;> rfl

theorem dictGet_dictSet_isSome (d : List (String × String)) (k v k2 : String)
    (h : (dictGet d k2).isSome = true) :
    (dictGet (dictSet d k v) k2).isSome = true := by
  by_cases hk : (k == k2) = true
  · have : k = k2 := by simpa using hk
    subst this
    rw [dictGet_dictSet_self]
    rfl
  · rw [dictGet_dictSet_ne d k v k2 (by simpa using hk)]
    exact h

theorem tiStep_foldl_mem (entries : List Entry) (acc : List (String × String)) :
    ∀ k v, (k, v) ∈ entries.foldl tiStep acc →
      (k, v) ∈ acc ∨ ∃ e, e ∈ entries ∧ e.isDir = true ∧
        k = lowerStr (removeSpaces e.name) ∧ v = e.path := by
  induction entries generalizing acc with
  | nil =>
    intro k v h
    rw [List.foldl_nil] at h
    exact Or.inl h
  | cons hd tl ih =>
    intro k v h
    rw [List.foldl_cons] at h
    rcases ih (tiStep acc hd) k v h with hacc | ⟨e, he, hdir, hk, hv⟩
    · unfold tiStep at hacc
      by_cases hd2 : hd.isDir = true
      · rw [if_pos hd2] at hacc
        rcases dictSet_mem _ _ _ _ _ hacc with h1 | ⟨hk, hv⟩
        · exact Or.inl h1
        · exact Or.inr ⟨hd, List.mem_cons_self _ _, hd2, hk, hv⟩
      · rw [if_neg hd2] at hacc
        exact Or.inl hacc
    · exact Or.inr ⟨e, List.mem_cons_of_mem _ he, hdir, hk, hv⟩

theorem tiStep_foldl_keep_key (entries : List Entry)
    (acc : List (String × String)) (k : String)
    (h : (dictGet acc k).isSome = true) :
    (dictGet (entries.foldl tiStep acc) k).isSome = true := by
  induction entries generalizing acc with
  | nil => exact h
  | cons hd tl ih =>
    rw [List.foldl_cons]
    apply ih
    unfold tiStep
    by_cases hd2 : hd.isDir = true
    · rw [if_pos hd2]
      exact dictGet_dictSet_isSome _ _ _ _ h
    · rw [if_neg hd2]
      exact h

theorem tiStep_foldl_complete (entries : List Entry)
    (acc : List (String × String)) :
    ∀ e, e ∈ entries → e.isDir = true →
      (dictGet (entries.foldl tiStep acc)
        (lowerStr (removeSpaces e.name))).isSome = true := by
  induction entries generalizing acc with
  | nil =>
    intro e he
    exact absurd he (List.not_mem_nil e)
  | cons hd tl ih =>
    intro e he hdir
    rw [List.foldl_cons]
    rcases List.mem_cons.mp he with he1 | he1
    · subst he1
      apply tiStep_foldl_keep_key
      unfold tiStep
      rw [if_pos hdir, dictGet_dictSet_self]
      rfl
    · exact ih (tiStep acc hd) e he1 hdir

/-! ## Claims -/

/-- Claim C1: a filename whose stem, split on `-`, has fewer segments
than `fields_config` has entries makes `name_check` raise
`InsufficientEntriesError`, and `run_matches` classifies the file as
skipped, incrementing the skip counter only — never failed or
matched. -/
theorem C1_insufficient_skipped (cfg : Config) (tp : List (String × String))
    (fs : FS) (root fn : String) (s : Summary)
    (h : (pySplit '-' (splitextStem fn)).length < cfg.fieldsConfig.length) :
    (nameCheck fn cfg.fieldsConfig []).2 = some NameErr.insufficient ∧
    processFile cfg tp fs root fn = Outcome.skipped ∧
    stepFile cfg tp fs root s fn =
      some { s with total := s.total + 1, skipped := s.skipped + 1 } := by
  have hnc : nameCheck fn cfg.fieldsConfig [] = ([], some NameErr.insufficient) := by
    unfold nameCheck
    rw [if_pos h]
  have hpf : processFile cfg tp fs root fn = Outcome.skipped := by
    simp [processFile, mkFile, hnc]
  exact ⟨by rw [hnc], hpf, by simp [stepFile, hpf]⟩

/-- Claim C1 witness: `report.pdf` has one stem segment against two
configured fields and is skipped. -/
theorem C1_witness :
    (nameCheck "report.pdf" cfgW.fieldsConfig []).2 = some NameErr.insufficient ∧
    processFile cfgW (buildTargetIndex fsW.targetEntries) fsW "/s" "report.pdf" =
      Outcome.skipped ∧
    stepFile cfgW (buildTargetIndex fsW.targetEntries) fsW "/s" initSummary
        "report.pdf" =
      some { initSummary with
             total := initSummary.total + 1
             skipped := initSummary.skipped + 1 } :=
  C1_insufficient_skipped cfgW (buildTargetIndex fsW.targetEntries) fsW "/s"
    "report.pdf" initSummary (by decide)

/-- Claim C2: `find_par_dir` normalizes the parent field's value
(lowercase, spaces removed) and collects the target-index entries whose
key contains it as a substring: exactly one candidate succeeds with that
folder's path, zero candidates raise a no-parent-match error, and two or
more raise an ambiguous-parent-match error listing the candidates'
folder (base)names. -/
theorem C2_parent_resolution (field v : String) (data tp : List (String × String))
    (hv : dictGet data field = some v) :
    ((parDirCandidates v tp).length = 1 →
      findParDir field tp data = Except.ok ((parDirCandidates v tp).headD "")) ∧
    (parDirCandidates v tp = [] →
      findParDir field tp data =
        Except.error (ResolveErr.invalid (MatchErr.noParent field v))) ∧
    (1 < (parDirCandidates v tp).length →
      findParDir field tp data =
        Except.error (ResolveErr.invalid
          (MatchErr.ambiguousParent field
            ((parDirCandidates v tp).map basename)))) := by
  refine ⟨?_, ?_, ?_⟩ <;> intro h
  · have h1 : ¬ (parDirCandidates v tp).length > 1 := by omega
    have h2 : ¬ (parDirCandidates v tp = []) := by
      intro hh
      rw [hh] at h
      simp at h
    simp [findParDir, hv, h1, h2]
  · simp [findParDir, hv, h]
  · simp [findParDir, hv, gt_iff_lt, h]

/-- Claim C2 witness: one, zero, and two containing keys on concrete
target indexes. -/
theorem C2_witness :
    findParDir "client" [("acmecorp", "/t/Acme Corp")] [("client", "ACME")] =
      Except.ok "/t/Acme Corp" ∧
    findParDir "client" [] [("client", "ACME")] =
      Except.error (ResolveErr.invalid (MatchErr.noParent "client" "ACME")) ∧
    findParDir "client" [("acme-east", "/t/acme-east"),
        ("acme-west", "/t/acme-west")] [("client", "ACME")] =
      Except.error (ResolveErr.invalid
        (MatchErr.ambiguousParent "client" ["acme-east", "acme-west"])) :=
  ⟨(C2_parent_resolution "client" "ACME" [("client", "ACME")]
      [("acmecorp", "/t/Acme Corp")] (by decide)).1 (by decide),
   (C2_parent_resolution "client" "ACME" [("client", "ACME")] []
      (by decide)).2.1 (by decide),
   (C2_parent_resolution "client" "ACME" [("client", "ACME")]
      [("acme-east", "/t/acme-east"), ("acme-west", "/t/acme-west")]
      (by decide)).2.2 (by decide)⟩

/-- Claim C5 counterexample: the claim's normalization
("whitespace-stripping") disagrees with the code on a directory name
containing a tab — `replace(" ", "")` removes space characters only, so
the built key keeps the tab. -/
theorem C5_cex :
    buildTargetIndex [⟨"A\tB", "/t/sub", true⟩] = [("a\tb", "/t/sub")] ∧
    specWhitespaceNorm "A\tB" = "ab" ∧
    ("a\tb" : String) ≠ "ab" := by
  decide

/-- Claim C5 (amended): the target index is built once before the walk
from the immediate entries of the target path only, keeping directories
only, keyed by the entry name lowercased with space characters (not all
whitespace) removed, mapped to the entry's path; the walk reads that one
index throughout and never changes it. -/
theorem C5_target_index (entries : List Entry) (cfg : Config) (fs : FS) :
    (∀ k v, (k, v) ∈ buildTargetIndex entries →
      ∃ e, e ∈ entries ∧ e.isDir = true ∧
        k = lowerStr (removeSpaces e.name) ∧ v = e.path) ∧
    (∀ e, e ∈ entries → e.isDir = true →
      (dictGet (buildTargetIndex entries)
        (lowerStr (removeSpaces e.name))).isSome = true) ∧
    runMatches cfg fs =
      fs.walk.foldlM (stepDir cfg (buildTargetIndex fs.targetEntries) fs)
        initSummary := by
  refine ⟨?_, ?_, rfl⟩
  · intro k v h
    rcases tiStep_foldl_mem entries [] k v h with h1 | h1
    · exact absurd h1 (List.not_mem_nil _)
    · exact h1
  · intro e he hdir
    exact tiStep_foldl_complete entries [] e he hdir

/-- Claim C5 witness: the directory `Acme Corp` of the concrete target
is indexed under `acmecorp`, and the concrete run reads the once-built
index. -/
theorem C5_witness :
    (dictGet (buildTargetIndex fsW.targetEntries) "acmecorp").isSome = true ∧
    runMatches cfgW fsW =
      fsW.walk.foldlM (stepDir cfgW (buildTargetIndex fsW.targetEntries) fsW)
        initSummary :=
  ⟨(C5_target_index fsW.targetEntries cfgW fsW).2.1
      ⟨"Acme Corp", "/t/Acme Corp", true⟩ (by decide) rfl,
   (C5_target_index fsW.targetEntries cfgW fsW).2.2⟩

/-- Claim C6: a walked directory whose path contains a configured
source-ignore string as a substring is skipped entirely: the summary —
total scanned, matched, failed and skipped — is unchanged by that
directory and its files. -/
theorem C6_ignored_dir_not_counted (cfg : Config) (tp : List (String × String))
    (fs : FS) (root : String) (fns : List String) (s : Summary)
    (h : cfg.sourceIgnore.any (fun pat => strIn pat root) = true) :
    stepDir cfg tp fs s (root, fns) = some s := by
  simp [stepDir, h]

/-- Claim C6 witness: the directory `/s/ignore` of the concrete walk is
skipped with all its files. -/
theorem C6_witness :
    stepDir cfgW (buildTargetIndex fsW.targetEntries) fsW initSummary
      ("/s/ignore", ["GLOBEX-2023-x.pdf"]) = some initSummary :=
  C6_ignored_dir_not_counted cfgW (buildTargetIndex fsW.targetEntries) fsW
    "/s/ignore" ["GLOBEX-2023-x.pdf"] initSummary (by decide)

/-- Claim C7: the matching phase is a deterministic pure function of the
filesystem snapshot and the configuration: its embedding only reads the
`FS` value (mirroring the code, which performs no writes during
`run_matches`), so two runs over the same unchanged trees and
configuration yield identical classification results. -/
theorem C7_deterministic (cfg1 cfg2 : Config) (fs1 fs2 : FS)
    (hc : cfg1 = cfg2) (hf : fs1 = fs2) :
    runMatches cfg1 fs1 = runMatches cfg2 fs2 := by
  rw [hc, hf]

/-- Claim C7 witness: two runs over the concrete snapshot agree. -/
theorem C7_witness : runMatches cfgW fsW = runMatches cfgW fsW :=
  C7_deterministic cfgW cfgW fsW fsW rfl rfl

/-- Claim C3 counterexample: with the allowed set `["acme"]` (stored in
lowercase), the segment `acme` matches an allowed value up to case but
`name_check` rejects it — membership is not decided case-insensitively,
only the segment is uppercased. -/
theorem C3_cex :
    (nameCheck "acme.txt" [("client", ["acme"])] []).2 =
      some (NameErr.invalidName "acme" "client" 1 ["acme"]) ∧
    (∃ a, a ∈ ["acme"] ∧ lowerStr "acme" = lowerStr a) :=
  ⟨by decide, ⟨"acme", by decide, rfl⟩⟩

/-- Claim C3 (amended): for a field rule with a non-empty allowed-value
set, the trimmed segment is accepted exactly when its uppercased form is
literally a member of the set (which coincides with case-insensitive
matching precisely when the allowed values are stored uppercase); on
rejection the file's outcome is Failed with the invalid-file-name
message. -/
theorem C3_allowed_value_check (fnFields : List String) (i : Nat)
    (fieldName : String) (req : List String)
    (rest : List (String × List String)) (data : List (String × String))
    (hreq : req ≠ []) :
    (upperStr (pyStrip (fnFields.getD i "")) ∉ req →
      nameCheckLoop fnFields i ((fieldName, req) :: rest) data =
        (data, some (NameErr.invalidName (pyStrip (fnFields.getD i ""))
          fieldName (i + 1) req))) ∧
    (upperStr (pyStrip (fnFields.getD i "")) ∈ req →
      nameCheckLoop fnFields i ((fieldName, req) :: rest) data =
        nameCheckLoop fnFields (i + 1) rest
          (dictSet data fieldName (pyStrip (fnFields.getD i "")))) ∧
    (∀ cfg tp fs root fn v fld pos r,
      (nameCheck fn cfg.fieldsConfig []).2 =
          some (NameErr.invalidName v fld pos r) →
      processFile cfg tp fs root fn =
        Outcome.failed { mkFile root fn with
          data := (nameCheck fn cfg.fieldsConfig []).1
          message := some (failedFileMsg fn (invalidFileNameMsg v fld pos r)) }) := by
  refine ⟨?_, ?_, ?_⟩
  · intro h
    simp only [nameCheckLoop]
    rw [if_pos ⟨hreq, h⟩]
  · intro h
    simp only [nameCheckLoop]
    rw [if_neg (fun hc => hc.2 h)]
  · intro cfg tp fs root fn v fld pos r h
    simp [processFile, mkFile, h]

/-- Claim C3 witness: `xyz` is rejected against `["ACME", "GLOBEX"]` and
the file fails with the invalid-file-name message, while `ACME` is
accepted and recorded. -/
theorem C3_witness :
    nameCheckLoop ["xyz", "2023"] 0 [("client", ["ACME", "GLOBEX"]), ("year", [])] [] =
      ([], some (NameErr.invalidName "xyz" "client" 1 ["ACME", "GLOBEX"])) ∧
    nameCheckLoop ["ACME", "2023"] 0 [("client", ["ACME", "GLOBEX"]), ("year", [])] [] =
      nameCheckLoop ["ACME", "2023"] 1 [("year", [])] (dictSet [] "client" "ACME") ∧
    processFile cfgW (buildTargetIndex fsW.targetEntries) fsW "/s" "xyz-2023.pdf" =
      Outcome.failed { mkFile "/s" "xyz-2023.pdf" with
        data := (nameCheck "xyz-2023.pdf" cfgW.fieldsConfig []).1
        message := some (failedFileMsg "xyz-2023.pdf"
          (invalidFileNameMsg "xyz" "client" 1 ["ACME", "GLOBEX"])) } :=
  ⟨(C3_allowed_value_check ["xyz", "2023"] 0 "client" ["ACME", "GLOBEX"]
      [("year", [])] [] (by decide)).1 (by decide),
   (C3_allowed_value_check ["ACME", "2023"] 0 "client" ["ACME", "GLOBEX"]
      [("year", [])] [] (by decide)).2.1 (by decide),
   (C3_allowed_value_check [] 0 "x" ["x"] [] [] (by decide)).2.2 cfgW
      (buildTargetIndex fsW.targetEntries) fsW "/s" "xyz-2023.pdf"
      "xyz" "client" 1 ["ACME", "GLOBEX"] (by decide)⟩

/-- Claim C4: when sub-folder resolution finds exactly one candidate but
a file with the identical name already exists inside it, `find_sub_dir`
raises a destination-collision `InvalidMatchError` rather than
succeeding; such a file is classified Failed with its target sub-dir and
target path left unset. -/
theorem C4_destination_collision (subField parDir v fn : String)
    (data : List (String × String)) (fs : FS) (p : String)
    (hv : dictGet data subField = some v)
    (hc : subDirCandidates v (fs.dirEntries parDir) = [p])
    (hf : fs.isFile (pjoin p fn) = true) :
    findSubDir subField parDir data fs fn =
      Except.error (ResolveErr.invalid
        (MatchErr.collision (basename parDir) (basename p))) ∧
    (∀ cfg tp root fn2 par e,
      (nameCheck fn2 cfg.fieldsConfig []).2 = none →
      findParDir cfg.parDirField tp (nameCheck fn2 cfg.fieldsConfig []).1 =
        Except.ok par →
      findSubDir cfg.subDirField par (nameCheck fn2 cfg.fieldsConfig []).1 fs fn2 =
        Except.error (ResolveErr.invalid e) →
      ∃ f, processFile cfg tp fs root fn2 = Outcome.failed f ∧
        f.targetPath = none ∧ f.targetSubDir = none) := by
  constructor
  · simp [findSubDir, hv, hc, hf]
  · intro cfg tp root fn2 par e h1 h2 h3
    refine ⟨{ mkFile root fn2 with
              data := (nameCheck fn2 cfg.fieldsConfig []).1
              targetParDir := some par
              message := some (failedMatchMsg fn2 (matchErrMsg e)) }, ?_, rfl, rfl⟩
    simp [processFile, mkFile, h1, h2, h3]

/-- Claim C4 witness: `ACME-2023-report.pdf` resolves to the single
sub-folder `2023-intake`, which already contains a file of that name, so
resolution fails with the collision error and the file is Failed with no
target path. -/
theorem C4_witness :
    findSubDir "year" "/t/Acme Corp" [("client", "ACME"), ("year", "2023")]
      fsC "ACME-2023-report.pdf" =
      Except.error (ResolveErr.invalid
        (MatchErr.collision "Acme Corp" "2023-intake")) ∧
    (∃ f, processFile cfgW (buildTargetIndex fsC.targetEntries) fsC "/s"
        "ACME-2023-report.pdf" = Outcome.failed f ∧
      f.targetPath = none ∧ f.targetSubDir = none) :=
  ⟨(C4_destination_collision "year" "/t/Acme Corp" "2023" "ACME-2023-report.pdf"
      [("client", "ACME"), ("year", "2023")] fsC "/t/Acme Corp/2023-intake"
      rfl rfl rfl).1,
   (C4_destination_collision "year" "/t/Acme Corp" "2023" "ACME-2023-report.pdf"
      [("client", "ACME"), ("year", "2023")] fsC "/t/Acme Corp/2023-intake"
      rfl rfl rfl).2 cfgW
      (buildTargetIndex fsC.targetEntries) "/s" "ACME-2023-report.pdf"
      "/t/Acme Corp"
      (MatchErr.collision "Acme Corp" "2023-intake")
      rfl rfl rfl⟩

/-- Claim C8 counterexample: parsing `foo-bar.txt` against fields
`a` (unconstrained) and `b` (allowed `["X"]`) fails at the second field
after the first was already recorded: the `data` mapping is left
non-empty on error, so the parse is not free of effects on pre-existing
state. -/
theorem C8_cex :
    nameCheck "foo-bar.txt" [("a", []), ("b", ["X"])] [] =
      ([("a", "foo")], some (NameErr.invalidName "bar" "b" 2 ["X"])) ∧
    ([("a", "foo")] : List (String × String)) ≠ [] := by
  decide

/-- Claim C8 (amended): `name_check` is a deterministic function of the
filename, the field rules and the file's `data` mapping, and it touches
nothing but that mapping; however it is not rollback-safe: an
insufficient-entries error or a failure at the first checked rule
returns `data` unchanged, while a failure at a later rule returns `data`
with the previously accepted fields already recorded. -/
theorem C8_name_check_effects (fileName : String)
    (fieldsConfig : List (String × List String))
    (data : List (String × String)) (fnFields : List String) (i : Nat)
    (n1 n2 : String) (r1 r2 : List String)
    (rest : List (String × List String)) :
    ((pySplit '-' (splitextStem fileName)).length < fieldsConfig.length →
      nameCheck fileName fieldsConfig data = (data, some NameErr.insufficient)) ∧
    (r1 ≠ [] → upperStr (pyStrip (fnFields.getD i "")) ∉ r1 →
      nameCheckLoop fnFields i ((n1, r1) :: rest) data =
        (data, some (NameErr.invalidName (pyStrip (fnFields.getD i ""))
          n1 (i + 1) r1))) ∧
    (¬(r1 ≠ [] ∧ upperStr (pyStrip (fnFields.getD i "")) ∉ r1) →
      r2 ≠ [] → upperStr (pyStrip (fnFields.getD (i + 1) "")) ∉ r2 →
      nameCheckLoop fnFields i ((n1, r1) :: (n2, r2) :: rest) data =
        (dictSet data n1 (pyStrip (fnFields.getD i "")),
         some (NameErr.invalidName (pyStrip (fnFields.getD (i + 1) ""))
           n2 (i + 1 + 1) r2))) := by
  refine ⟨?_, ?_, ?_⟩
  · intro h
    unfold nameCheck
    rw [if_pos h]
  · intro h1 h2
    simp only [nameCheckLoop]
    rw [if_pos ⟨h1, h2⟩]
  · intro h0 h1 h2
    simp only [nameCheckLoop]
    rw [if_neg h0, if_pos ⟨h1, h2⟩]

/-- Claim C8 witness: `report.pdf` is rejected with `data` unchanged,
`xyz` fails the first rule with `data` unchanged, and `foo-bar` fails
the second rule with the first field left recorded. -/
theorem C8_witness :
    nameCheck "report.pdf" [("client", ["ACME"]), ("year", [])] [] =
      ([], some NameErr.insufficient) ∧
    nameCheckLoop ["xyz", "2023"] 0 [("client", ["ACME"]), ("year", [])] [] =
      ([], some (NameErr.invalidName "xyz" "client" 1 ["ACME"])) ∧
    nameCheckLoop ["foo", "bar"] 0 [("a", []), ("b", ["X"])] [] =
      (dictSet [] "a" "foo", some (NameErr.invalidName "bar" "b" 2 ["X"])) :=
  ⟨(C8_name_check_effects "report.pdf" [("client", ["ACME"]), ("year", [])]
      [] [] 0 "x" "x" [] [] []).1 (by decide),
   (C8_name_check_effects "x" [] [] ["xyz", "2023"] 0 "client" "x"
      ["ACME"] [] [("year", [])]).2.1 (by decide) (by decide),
   (C8_name_check_effects "x" [] [] ["foo", "bar"] 0 "a" "b" [] ["X"]
      []).2.2 (by decide) (by decide) (by decide)⟩

theorem foldlM_option_inv {α σ : Type} (f : σ → α → Option σ) (P : σ → Prop)
    (hf : ∀ s a s2, f s a = some s2 → P s → P s2) :
    ∀ (l : List α) (s s2 : σ), List.foldlM f s l = some s2 → P s → P s2 := by
  intro l
  induction l with
  | nil =>
    intro s s2 h hp
    rw [List.foldlM_nil] at h
    simp at h
    rw [← h]
    exact hp
  | cons a l ih =>
    intro s s2 h hp
    rw [List.foldlM_cons] at h
    cases hfa : f s a with
    | none =>
      rw [hfa] at h
      simp at h
    | some s1 =>
      rw [hfa] at h
      exact ih s1 s2 h (hf s a s1 hfa hp)

theorem stepFile_inv (cfg : Config) (tp : List (String × String)) (fs : FS)
    (root : String) (s : Summary) (fn : String) (s2 : Summary)
    (h : stepFile cfg tp fs root s fn = some s2) (hp : summaryInv s) :
    summaryInv s2 := by
  unfold stepFile at h
  cases hpf : processFile cfg tp fs root fn <;> rw [hpf] at h <;> simp at h
  case matched f =>
    rw [← h]
    simp only [summaryInv, List.length_append] at hp ⊢
    simp
    omega
  case failed f =>
    rw [← h]
    simp only [summaryInv, List.length_append] at hp ⊢
    simp
    omega
  case skipped =>
    rw [← h]
    simp only [summaryInv] at hp ⊢
    omega

theorem stepDir_inv (cfg : Config) (tp : List (String × String)) (fs : FS)
    (s : Summary) (d : String × List String) (s2 : Summary)
    (h : stepDir cfg tp fs s d = some s2) (hp : summaryInv s) :
    summaryInv s2 := by
  unfold stepDir at h
  split at h
  · rw [Option.some.injEq] at h
    rw [← h]
    exact hp
  · exact foldlM_option_inv _ summaryInv
      (fun a b c hh hh2 => stepFile_inv cfg tp fs d.1 a b c hh hh2)
      d.2 s s2 h hp

/-- Claim C9: after a matching run that completes without a fatal error,
the outcome buckets partition the scanned files: the total-scanned
counter equals the number of matched files plus the number of failed
files plus the skipped count. -/
theorem C9_partition (cfg : Config) (fs : FS) (s : Summary)
    (h : runMatches cfg fs = some s) :
    s.total = s.matched.length + s.failed.length + s.skipped := by
  have h0 : summaryInv initSummary := by
    simp [summaryInv, initSummary]
  exact foldlM_option_inv _ summaryInv
    (fun a b c hh hh2 =>
      stepDir_inv cfg (buildTargetIndex fs.targetEntries) fs a b c hh hh2)
    fs.walk initSummary s h h0

/-- Claim C9 witness: the concrete run scans 4 files and ends with
1 matched, 1 failed, 1 skipped and the ignored directory not counted;
the counters partition the total. -/
theorem C9_witness :
    runMatches cfgW fsW = some sW ∧
    sW.total = sW.matched.length + sW.failed.length + sW.skipped :=
  ⟨rfl, C9_partition cfgW fsW sW rfl⟩

/-- Claim C10: sub-folder candidate collection takes all immediate
entries of the resolved parent folder without filtering to directories:
the candidate list is invariant under rewriting every entry's
directory flag, a matching regular file is a candidate, and a single
matching regular file with no name collision is selected as the
destination "sub-folder". -/
theorem C10_entries_not_filtered (v : String) (entries : List Entry) (b : Bool)
    (e : Entry) (subField parDir fn : String) (data : List (String × String))
    (fs : FS) (p : String) :
    (subDirCandidates v (entries.map (fun e2 => { e2 with isDir := b })) =
      subDirCandidates v entries) ∧
    (e ∈ entries → strIn (lowerStr v) (lowerStr e.name) = true →
      e.path ∈ subDirCandidates v entries) ∧
    (dictGet data subField = some v →
      subDirCandidates v (fs.dirEntries parDir) = [p] →
      fs.isFile (pjoin p fn) = false →
      findSubDir subField parDir data fs fn = Except.ok (p, pjoin p fn)) := by
  refine ⟨?_, ?_, ?_⟩
  · simp only [subDirCandidates, List.filter_map, List.map_map]
    rfl
  · intro he hs
    exact List.mem_map.mpr ⟨e, List.mem_filter.mpr ⟨he, hs⟩, rfl⟩
  · intro hv hc hf
    simp [findSubDir, hv, hc, hf]

/-- Claim C10 witness: a regular file `2023 summary.xlsx` in the parent
folder is collected as a candidate and even selected as the destination,
its directory flag being irrelevant. -/
theorem C10_witness :
    subDirCandidates "2023"
      [⟨"2023 summary.xlsx", "/t/P/2023 summary.xlsx", true⟩] =
      subDirCandidates "2023"
        [⟨"2023 summary.xlsx", "/t/P/2023 summary.xlsx", false⟩] ∧
    "/t/P/2023 summary.xlsx" ∈ subDirCandidates "2023"
      [⟨"2023 summary.xlsx", "/t/P/2023 summary.xlsx", false⟩] ∧
    findSubDir "year" "/t/P" [("year", "2023")] fsD "f.pdf" =
      Except.ok ("/t/P/2023 summary.xlsx", pjoin "/t/P/2023 summary.xlsx" "f.pdf") :=
  ⟨(C10_entries_not_filtered "2023"
      [⟨"2023 summary.xlsx", "/t/P/2023 summary.xlsx", false⟩] true
      ⟨"2023 summary.xlsx", "/t/P/2023 summary.xlsx", false⟩
      "year" "/t/P" "f.pdf" [("year", "2023")] fsD
      "/t/P/2023 summary.xlsx").1,
   (C10_entries_not_filtered "2023"
      [⟨"2023 summary.xlsx", "/t/P/2023 summary.xlsx", false⟩] true
      ⟨"2023 summary.xlsx", "/t/P/2023 summary.xlsx", false⟩
      "year" "/t/P" "f.pdf" [("year", "2023")] fsD
      "/t/P/2023 summary.xlsx").2.1 (by decide) (by decide),
   (C10_entries_not_filtered "2023"
      [⟨"2023 summary.xlsx", "/t/P/2023 summary.xlsx", false⟩] true
      ⟨"2023 summary.xlsx", "/t/P/2023 summary.xlsx", false⟩
      "year" "/t/P" "f.pdf" [("year", "2023")] fsD
      "/t/P/2023 summary.xlsx").2.2 (by decide) (by decide) (by decide)⟩

end AutoFiler
